import Mathlib

/-!
Verification development for the GPU telemetry agent (gpud core).

The definitions below are a shallow embedding, translated from the Go
sources of the repository:
- nvidia_smi_query_gpu.go : unit-suffixed scalar getters, temperature
  normalization, anomaly scans;
- nvidia_smi_query.go : the line-rewriting decoder and its fallback path;
- the nvml package : device monitor snapshot, shutdown and poll loop.

Machine floating-point values are modelled as exact rationals; the
decimal string parser below models strconv.ParseFloat restricted to the
plain decimal literals that occur in nvidia-smi output, and the
two-decimal formatter models fmt.Sprintf with the %.2f verb.  External
library calls (yaml unmarshalling, nvml metric queries, xid lookup) are
modelled as function parameters, since their code is outside this
repository; all control flow around them is embedded faithfully.
-/

/-- contains check on character lists: true when the second list occurs
as a contiguous run inside the first (models bytes.Contains). -/
def charsStartWith : List Char → List Char → Bool
  | _, [] => true
  | [], _ :: _ => false
  | c :: cs, d :: ds => c = d && charsStartWith cs ds

def charsContain : List Char → List Char → Bool
  | [], sub => sub.isEmpty
  | c :: cs, sub => charsStartWith (c :: cs) sub || charsContain cs sub

/-- Models bytes.Contains / strings.Contains. -/
def containsSub (s sub : String) : Bool :=
  charsContain s.data sub.data

/-- Models bytes.Replace with count 1: replace the first occurrence only. -/
def charsReplaceFirst : List Char → List Char → List Char → List Char
  | [], _, _ => []
  | c :: cs, old, new =>
    if charsStartWith (c :: cs) old then new ++ (c :: cs).drop old.length
    else c :: charsReplaceFirst cs old new

def replaceFirst (s old new : String) : String :=
  String.mk (charsReplaceFirst s.data old.data new.data)

/-- Models strings.Repeat of a single space. -/
def spaces (n : Nat) : String :=
  String.mk (List.replicate n ' ')

/-- Models bytes.HasSuffix / strings.HasSuffix. -/
def charsEndWith (hay sub : List Char) : Bool :=
  decide (sub.length ≤ hay.length) && charsStartWith (hay.drop (hay.length - sub.length)) sub

def strEnds (s sfx : String) : Bool :=
  charsEndWith s.data sfx.data

def strStarts (s pre : String) : Bool :=
  charsStartWith s.data pre.data

/-- Models strings.TrimSuffix once the suffix is known to be present. -/
def dropRightStr (s : String) (n : Nat) : String :=
  String.mk (s.data.take (s.data.length - n))

def isSpaceChar (c : Char) : Bool :=
  c = ' ' || c = '\t' || c = '\n' || c = '\r'

/-- Models bytes.TrimSpace on the character set that occurs in the
nvidia-smi output. -/
def trimStr (s : String) : String :=
  String.mk (((s.data.dropWhile isSpaceChar).reverse.dropWhile isSpaceChar).reverse)

/-- Models bytes.Split / strings.Split with a one-character separator. -/
def splitOnChar (sep : Char) : List Char → List (List Char)
  | [] => [[]]
  | c :: cs =>
    if c = sep then [] :: splitOnChar sep cs
    else
      match splitOnChar sep cs with
      | [] => [[c]]
      | h :: t => (c :: h) :: t

def splitLines (s : String) : List String :=
  (splitOnChar '\n' s.data).map String.mk

/-- Models taking the first element of bytes.Split with a multi-byte
separator: everything before the first occurrence of sub. -/
def takeUntilSub : List Char → List Char → List Char
  | [], _ => []
  | c :: cs, sub =>
    if charsStartWith (c :: cs) sub then []
    else c :: takeUntilSub cs sub

/-- exact rational value of a machine float, kept as an unnormalized
fraction so that every arithmetic step is kernel-computable; every value
built below keeps den positive. -/
structure Frac where
  num : ℤ
  den : ℤ
deriving DecidableEq, Repr

def fracZero : Frac := ⟨0, 1⟩

def Frac.add (a b : Frac) : Frac :=
  ⟨a.num * b.den + b.num * a.den, a.den * b.den⟩

def Frac.mul (a b : Frac) : Frac :=
  ⟨a.num * b.num, a.den * b.den⟩

def Frac.neg (a : Frac) : Frac :=
  ⟨-a.num, a.den⟩

/-- division, flipping signs to keep the denominator positive; division
by zero is never reached (all uses are guarded by a positivity check). -/
def Frac.div (a b : Frac) : Frac :=
  if b.num < 0 then ⟨-(a.num * b.den), a.den * (-b.num)⟩
  else ⟨a.num * b.den, a.den * b.num⟩

/-- semantic order by cross multiplication (dens are positive). -/
def Frac.lt (a b : Frac) : Prop :=
  a.num * b.den < b.num * a.den

instance (a b : Frac) : Decidable (Frac.lt a b) :=
  inferInstanceAs (Decidable (a.num * b.den < b.num * a.den))

def Frac.le (a b : Frac) : Prop :=
  a.num * b.den ≤ b.num * a.den

instance (a b : Frac) : Decidable (Frac.le a b) :=
  inferInstanceAs (Decidable (a.num * b.den ≤ b.num * a.den))

/-- semantic equality test, modelling float equality in the Go source. -/
def Frac.eqv (a b : Frac) : Prop :=
  a.num * b.den = b.num * a.den

instance (a b : Frac) : Decidable (Frac.eqv a b) :=
  inferInstanceAs (Decidable (a.num * b.den = b.num * a.den))

/-- floor of a fraction with positive denominator (Int.fdiv rounds
toward negative infinity). -/
def Frac.floor (a : Frac) : ℤ :=
  Int.fdiv a.num a.den

def isDigitChar (c : Char) : Bool :=
  '0' ≤ c && c ≤ '9'

def digitsToNat (l : List Char) : ℕ :=
  l.foldl (fun acc c => acc * 10 + (c.toNat - ('0').toNat)) 0

/-- decimal mantissa without sign: digits, digits.digits, digits., or
.digits, needing at least one digit in total. -/
def parseUnsignedDecimal (l : List Char) : Option Frac :=
  let intPart := l.takeWhile isDigitChar
  let rest := l.dropWhile isDigitChar
  match rest with
  | [] => if intPart.isEmpty then none else some ⟨digitsToNat intPart, 1⟩
  | '.' :: fracPart =>
    if fracPart.all isDigitChar && (!intPart.isEmpty || !fracPart.isEmpty) then
      some ⟨digitsToNat intPart * 10 ^ fracPart.length + digitsToNat fracPart, (10 : ℤ) ^ fracPart.length⟩
    else none
  | _ => none

/-- Models strconv.ParseFloat on plain signed decimal literals. -/
def parseDecimal (s : String) : Option Frac :=
  match s.data with
  | '-' :: rest => (parseUnsignedDecimal rest).map Frac.neg
  | '+' :: rest => parseUnsignedDecimal rest
  | l => parseUnsignedDecimal l

/-- Models fmt.Sprintf with the %.2f verb: round to two decimal places
(half away from zero) and render with exactly two fraction digits. -/
def formatTwoDecimals (q : Frac) : String :=
  let q100 := Frac.mul q ⟨100, 1⟩
  let scaled : ℤ :=
    if Frac.le fracZero q then Frac.floor (Frac.add q100 ⟨1, 2⟩)
    else -(Frac.floor (Frac.add (Frac.neg q100) ⟨1, 2⟩))
  let a : ℕ := scaled.natAbs
  let body := toString (a / 100) ++ "." ++ (if a % 100 < 10 then "0" else "") ++ toString (a % 100)
  if scaled < 0 then "-" ++ body else body

/-- Go error values produced by the unit-suffixed scalar getters, kept
structurally distinct: the sentinel absence error (errors.New N/A), the
format error built with fmt.Errorf, and the strconv.ParseFloat error. -/
inductive ParseErr where
  | notAvailable : ParseErr
  | formatErr (msg : String) : ParseErr
  | numErr (s : String) : ParseErr
deriving DecidableEq, Repr

/-- shared body of every unit-suffixed getter: reject N/A with the
absence sentinel, then require the exact suffix, then parse the rest as
a decimal number (mirrors the repeated Go pattern, with msg the exact
fmt.Errorf message of the particular getter). -/
def parseSuffixedValue (f sfx msg : String) : Except ParseErr Frac :=
  if f = "N/A" then .error ParseErr.notAvailable
  else if strEnds f sfx then
    match parseDecimal (dropRightStr f sfx.data.length) with
    | some q => .ok q
    | none => .error (ParseErr.numErr (dropRightStr f sfx.data.length))
  else .error (ParseErr.formatErr msg)

structure SMIGPUTemperature where
  ID : String := ""
  Current : String := ""
  Limit : String := ""
  Shutdown : String := ""
  ShutdownLimit : String := ""
  Slowdown : String := ""
  SlowdownLimit : String := ""
  MaxOperatingLimit : String := ""
  Target : String := ""
  MemoryCurrent : String := ""
  MemoryMaxOperatingLimit : String := ""
deriving DecidableEq, Repr

def SMIGPUTemperature.GetCurrentCelsius (tm : SMIGPUTemperature) : Except ParseErr Frac :=
  parseSuffixedValue tm.Current " C"
    ("invalid GPU current temperature: " ++ tm.Current ++ " (expected celsius)")

def SMIGPUTemperature.GetLimitCelsius (tm : SMIGPUTemperature) : Except ParseErr Frac :=
  parseSuffixedValue tm.Limit " C"
    ("invalid GPU t.limit temperature: " ++ tm.Limit ++ " (expected celsius)")

/-- Note: the Go source formats tm.Limit, not tm.Shutdown, into this
error message; the embedding preserves that. -/
def SMIGPUTemperature.GetShutdownCelsius (tm : SMIGPUTemperature) : Except ParseErr Frac :=
  parseSuffixedValue tm.Shutdown " C"
    ("invalid GPU t.shutdown temperature: " ++ tm.Limit ++ " (expected celsius)")

def SMIGPUTemperature.GetShutdownLimitCelsius (tm : SMIGPUTemperature) : Except ParseErr Frac :=
  parseSuffixedValue tm.ShutdownLimit " C"
    ("invalid GPU t.shutdown limit temperature: " ++ tm.Limit ++ " (expected celsius)")

def SMIGPUTemperature.GetSlowdownCelsius (tm : SMIGPUTemperature) : Except ParseErr Frac :=
  parseSuffixedValue tm.Slowdown " C"
    ("invalid GPU t.slowdown temperature: " ++ tm.Limit ++ " (expected celsius)")

def SMIGPUTemperature.GetSlowdownLimitCelsius (tm : SMIGPUTemperature) : Except ParseErr Frac :=
  parseSuffixedValue tm.SlowdownLimit " C"
    ("invalid GPU t.slowdown limit temperature: " ++ tm.Limit ++ " (expected celsius)")

structure SMIGPUPowerReadings where
  ID : String := ""
  PowerDraw : String := ""
  CurrentPowerLimit : String := ""
  RequestedPowerLimit : String := ""
  DefaultPowerLimit : String := ""
  MinPowerLimit : String := ""
  MaxPowerLimit : String := ""
deriving DecidableEq, Repr

def SMIGPUPowerReadings.GetPowerDrawW (g : SMIGPUPowerReadings) : Except ParseErr Frac :=
  parseSuffixedValue g.PowerDraw " W"
    ("invalid power draw: " ++ g.PowerDraw ++ " (expected watts)")

def SMIGPUPowerReadings.GetCurrentPowerLimitW (g : SMIGPUPowerReadings) : Except ParseErr Frac :=
  parseSuffixedValue g.CurrentPowerLimit " W"
    ("invalid current power limit: " ++ g.CurrentPowerLimit ++ " (expected watts)")

/-- Note: the Go source says current power limit in this message though
the field is the requested power limit; the embedding preserves that. -/
def SMIGPUPowerReadings.GetRequestedPowerLimitW (g : SMIGPUPowerReadings) : Except ParseErr Frac :=
  parseSuffixedValue g.RequestedPowerLimit " W"
    ("invalid current power limit: " ++ g.RequestedPowerLimit ++ " (expected watts)")

def SMIGPUPowerReadings.GetDefaultPowerLimitW (g : SMIGPUPowerReadings) : Except ParseErr Frac :=
  parseSuffixedValue g.DefaultPowerLimit " W"
    ("invalid current power limit: " ++ g.DefaultPowerLimit ++ " (expected watts)")

def SMIGPUPowerReadings.GetMinPowerLimitW (g : SMIGPUPowerReadings) : Except ParseErr Frac :=
  parseSuffixedValue g.MinPowerLimit " W"
    ("invalid current power limit: " ++ g.MinPowerLimit ++ " (expected watts)")

def SMIGPUPowerReadings.GetMaxPowerLimitW (g : SMIGPUPowerReadings) : Except ParseErr Frac :=
  parseSuffixedValue g.MaxPowerLimit " W"
    ("invalid current power limit: " ++ g.MaxPowerLimit ++ " (expected watts)")

/-- normalized temperature record (ParsedTemperature in the source);
all fields are strings, absent values stay at the zero value. -/
structure ParsedTemperature where
  ID : String := ""
  CurrentHumanized : String := ""
  CurrentCelsius : String := ""
  LimitHumanized : String := ""
  LimitCelsius : String := ""
  UsedPercent : String := ""
  ShutdownHumanized : String := ""
  ShutdownLimit : String := ""
  ShutdownCelsius : String := ""
  SlowdownHumanized : String := ""
  SlowdownLimit : String := ""
  SlowdownCelsius : String := ""
  MaxOperatingLimit : String := ""
  Target : String := ""
  MemoryCurrent : String := ""
  MemoryMaxOperatingLimit : String := ""
deriving DecidableEq, Repr

/-- the shutdown local of Parse: GetShutdownCelsius, retried as
GetShutdownLimitCelsius on error; the Bool is the final err == nil test
and the value is 0 whenever both getters fail (each Go getter returns 0
alongside its error). -/
def SMIGPUTemperature.shutdownPair (tm : SMIGPUTemperature) : Frac × Bool :=
  match tm.GetShutdownCelsius with
  | .ok v => (v, true)
  | .error _ =>
    match tm.GetShutdownLimitCelsius with
    | .ok v => (v, true)
    | .error _ => (fracZero, false)

/-- the slowdown local of Parse: GetSlowdownCelsius, retried as
GetSlowdownLimitCelsius on error. -/
def SMIGPUTemperature.slowdownPair (tm : SMIGPUTemperature) : Frac × Bool :=
  match tm.GetSlowdownCelsius with
  | .ok v => (v, true)
  | .error _ =>
    match tm.GetSlowdownLimitCelsius with
    | .ok v => (v, true)
    | .error _ => (fracZero, false)

/-- the limit local of Parse after its fallback block: the explicit
limit when it parses (Bool true), otherwise 0 overwritten by the
shutdown value when positive, then by the slowdown value when the
running value is still 0 and the slowdown value is positive. -/
def SMIGPUTemperature.limitPair (tm : SMIGPUTemperature) : Frac × Bool :=
  match tm.GetLimitCelsius with
  | .ok v => (v, true)
  | .error _ =>
    let l := fracZero
    let l := if Frac.lt fracZero (tm.shutdownPair).1 then (tm.shutdownPair).1 else l
    let l := if Frac.eqv l fracZero ∧ Frac.lt fracZero (tm.slowdownPair).1 then (tm.slowdownPair).1 else l
    (l, false)

/-- SMIGPUTemperature.Parse from the source: current is mandatory and
aborts with its error; shutdown, slowdown and limit are best effort;
used-percent is current over the resolved limit times 100 when that
limit is positive, else the literal 0.0 string. -/
def SMIGPUTemperature.Parse (tm : SMIGPUTemperature) : Except ParseErr ParsedTemperature :=
  match tm.GetCurrentCelsius with
  | .error e => .error e
  | .ok cur =>
    .ok {
      ID := tm.ID
      CurrentHumanized := tm.Current
      CurrentCelsius := formatTwoDecimals cur
      ShutdownHumanized := tm.Shutdown
      ShutdownLimit := tm.ShutdownLimit
      ShutdownCelsius := if (tm.shutdownPair).2 then formatTwoDecimals (tm.shutdownPair).1 else ""
      SlowdownHumanized := tm.Slowdown
      SlowdownLimit := tm.SlowdownLimit
      SlowdownCelsius := if (tm.slowdownPair).2 then formatTwoDecimals (tm.slowdownPair).1 else ""
      LimitHumanized := tm.Limit
      LimitCelsius := if (tm.limitPair).2 then formatTwoDecimals (tm.limitPair).1 else ""
      UsedPercent :=
        if Frac.lt fracZero (tm.limitPair).1 then
          formatTwoDecimals (Frac.mul (Frac.div cur (tm.limitPair).1) ⟨100, 1⟩)
        else "0.0"
      MaxOperatingLimit := tm.MaxOperatingLimit
      Target := tm.Target
      MemoryCurrent := tm.MemoryCurrent
      MemoryMaxOperatingLimit := tm.MemoryMaxOperatingLimit }

/-- Modelled from the claim text for C2: the limit is resolved in the
order explicit limit, then shutdown chain, then slowdown chain, first
available (first successfully parsed) wins; used-percent is computed
against the resolved limit only when it is greater than zero. -/
def specResolvedTempLimit (tm : SMIGPUTemperature) : Option Frac :=
  match tm.GetLimitCelsius with
  | .ok v => some v
  | .error _ =>
    match tm.shutdownPair with
    | (v, true) => some v
    | (_, false) =>
      match tm.slowdownPair with
      | (v, true) => some v
      | (_, false) => none

/-- Modelled from the claim text for C2: used-percent under the claimed
resolution rule. -/
def specTempUsedPercent (tm : SMIGPUTemperature) : String :=
  match tm.GetCurrentCelsius, specResolvedTempLimit tm with
  | .ok cur, some l =>
    if Frac.lt fracZero l then formatTwoDecimals (Frac.mul (Frac.div cur l) ⟨100, 1⟩) else "0.0"
  | _, _ => "0.0"

/-- the amended resolution rule (what the code actually computes): the
explicit limit when it parses, regardless of sign; otherwise the first
positive value among the shutdown chain and then the slowdown chain;
used-percent is computed only when the value so resolved is positive. -/
def amendedTempUsedPercent (tm : SMIGPUTemperature) : String :=
  match tm.GetCurrentCelsius with
  | .error _ => "0.0"
  | .ok cur =>
    let l : Frac :=
      match tm.GetLimitCelsius with
      | .ok v => v
      | .error _ =>
        if Frac.lt fracZero (tm.shutdownPair).1 then (tm.shutdownPair).1
        else if Frac.lt fracZero (tm.slowdownPair).1 then (tm.slowdownPair).1
        else fracZero
    if Frac.lt fracZero l then formatTwoDecimals (Frac.mul (Frac.div cur l) ⟨100, 1⟩) else "0.0"

structure SMIGPUResetStatus where
  ResetRequired : String := ""
  DrainAndResetRecommended : String := ""
deriving DecidableEq, Repr

structure SMIClockEventReasons where
  SWPowerCap : String := ""
  SWThermalSlowdown : String := ""
  HWSlowdown : String := ""
  HWThermalSlowdown : String := ""
  HWPowerBrakeSlowdown : String := ""
deriving DecidableEq, Repr

structure SMIECCErrorAggregate where
  DRAMCorrectable : String := ""
  DRAMUncorrectable : String := ""
  SRAMCorrectable : String := ""
  SRAMThresholdExceeded : String := ""
  SRAMUncorrectable : String := ""
  SRAMUncorrectableParity : String := ""
  SRAMUncorrectableSECDED : String := ""
deriving DecidableEq, Repr

structure SMIECCErrorAggregateUncorrectableSRAMSources where
  SRAML2 : String := ""
  SRAMMicrocontroller : String := ""
  SRAMOther : String := ""
  SRAMPCIE : String := ""
  SRAMSM : String := ""
deriving DecidableEq, Repr

structure SMIECCErrorVolatile where
  DRAMCorrectable : String := ""
  DRAMUncorrectable : String := ""
  SRAMCorrectable : String := ""
  SRAMUncorrectable : String := ""
  SRAMUncorrectableParity : String := ""
  SRAMUncorrectableSECDED : String := ""
deriving DecidableEq, Repr

structure SMIECCErrors where
  ID : String := ""
  Aggregate : Option SMIECCErrorAggregate := none
  AggregateUncorrectableSRAMSources : Option SMIECCErrorAggregateUncorrectableSRAMSources := none
  Volatile : Option SMIECCErrorVolatile := none
deriving DecidableEq, Repr

structure SMIProcesses where
  GPUInstanceID : String := ""
  ComputeInstanceID : String := ""
  ProcessID : Int := 0
  ProcessType : String := ""
  ProcessName : String := ""
  ProcessUsedGPUMemory : String := ""
deriving DecidableEq, Repr

structure SMIFBMemoryUsage where
  ID : String := ""
  Total : String := ""
  Reserved : String := ""
  Used : String := ""
  Free : String := ""
deriving DecidableEq, Repr

/-- one device record of the nvidia-smi query output; pointer-valued
sub-records of the Go struct are options. -/
structure NvidiaSMIGPU where
  ID : String := ""
  ProductName : String := ""
  ProductBrand : String := ""
  ProductArchitecture : String := ""
  PersistenceMode : String := ""
  AddressingMode : String := ""
  GPUResetStatus : Option SMIGPUResetStatus := none
  ClockEventReasons : Option SMIClockEventReasons := none
  ECCErrors : Option SMIECCErrors := none
  Temperature : Option SMIGPUTemperature := none
  GPUPowerReadings : Option SMIGPUPowerReadings := none
  Processes : Option SMIProcesses := none
  FBMemoryUsage : Option SMIFBMemoryUsage := none
  FanSpeed : String := ""

/-- nil slices are none, non-nil slices are some; the source returns
nil exactly when the accumulated list is empty. -/
def SMIECCErrors.FindVolatileUncorrectableErrs (eccErrs : SMIECCErrors) : Option (List String) :=
  let errs : List String := []
  let errs :=
    match eccErrs.Volatile with
    | none => errs
    | some v =>
      let errs := if v.DRAMUncorrectable ≠ "" ∧ v.DRAMUncorrectable ≠ "0" then
        errs ++ ["GPU " ++ eccErrs.ID ++ ": Volatile DRAMUncorrectable: " ++ v.DRAMUncorrectable] else errs
      let errs := if v.SRAMUncorrectable ≠ "" ∧ v.SRAMUncorrectable ≠ "0" then
        errs ++ ["GPU " ++ eccErrs.ID ++ ": Volatile SRAMUncorrectable: " ++ v.SRAMUncorrectable] else errs
      let errs := if v.SRAMUncorrectableParity ≠ "" ∧ v.SRAMUncorrectableParity ≠ "0" then
        errs ++ ["GPU " ++ eccErrs.ID ++ ": Volatile SRAMUncorrectableParity: " ++ v.SRAMUncorrectable] else errs
      let errs := if v.SRAMUncorrectableSECDED ≠ "" ∧ v.SRAMUncorrectableSECDED ≠ "0" then
        errs ++ ["GPU " ++ eccErrs.ID ++ ": Volatile SRAMUncorrectableSECDED: " ++ v.SRAMUncorrectable] else errs
      errs
  if errs.length = 0 then none else some errs

/-- FindAddressingModeErr from the source: an error value when the
addressing mode carries the Unknown Error marker. -/
def NvidiaSMIGPU.FindAddressingModeErr (g : NvidiaSMIGPU) : Option String :=
  if containsSub g.AddressingMode "Unknown Error" then
    some (g.ID ++ ": AddressingMode " ++ g.AddressingMode)
  else none

/-- per-device scan for the Unknown Error marker across the fixed field
set of the source. -/
def NvidiaSMIGPU.FindErrs (g : NvidiaSMIGPU) : Option (List String) :=
  let errs : List String := []
  let errs :=
    match g.Temperature with
    | none => errs
    | some t =>
      let errs := if containsSub t.Current "Unknown Error" then
        errs ++ [g.ID ++ ": Temperature.Current Unknown Error"] else errs
      let errs := if containsSub t.Limit "Unknown Error" then
        errs ++ [g.ID ++ ": Temperature.Limit Unknown Error"] else errs
      let errs := if containsSub t.ShutdownLimit "Unknown Error" then
        errs ++ [g.ID ++ ": Temperature.ShutdownLimit Unknown Error"] else errs
      let errs := if containsSub t.SlowdownLimit "Unknown Error" then
        errs ++ [g.ID ++ ": Temperature.SlowdownLimit Unknown Error"] else errs
      let errs := if containsSub t.MaxOperatingLimit "Unknown Error" then
        errs ++ [g.ID ++ ": Temperature.MaxOperatingLimit Unknown Error"] else errs
      let errs := if containsSub t.Target "Unknown Error" then
        errs ++ [g.ID ++ ": Temperature.Target Unknown Error"] else errs
      let errs := if containsSub t.MemoryCurrent "Unknown Error" then
        errs ++ [g.ID ++ ": Temperature.MemoryCurrent Unknown Error"] else errs
      let errs := if containsSub t.MemoryMaxOperatingLimit "Unknown Error" then
        errs ++ [g.ID ++ ": Temperature.MemoryMaxOperatingLimit Unknown Error"] else errs
      errs
  let errs :=
    match g.FindAddressingModeErr with
    | some msg => errs ++ [msg]
    | none => errs
  let errs := if containsSub g.FanSpeed "Unknown Error" then
    errs ++ [g.ID ++ ": FanSpeed Unknown Error"] else errs
  if errs.length = 0 then none else some errs

def ClockEventsActive : String := "Active"

def ClockEventsNotActive : String := "Not Active"

/-- hardware slowdown scan of one device: the two sub-flags are checked
only under an active top-level HW Slowdown flag. -/
def NvidiaSMIGPU.FindHWSlowdownErrs (g : NvidiaSMIGPU) : Option (List String) :=
  let errs : List String := []
  let errs :=
    match g.ClockEventReasons with
    | none => errs
    | some cer =>
      if cer.HWSlowdown = ClockEventsActive then
        let errs := if cer.HWThermalSlowdown = ClockEventsActive then
          errs ++ [g.ID ++ ": ClockEventReasons.HWSlowdown.ThermalSlowdown " ++ ClockEventsActive] else errs
        let errs := if cer.HWPowerBrakeSlowdown = ClockEventsActive then
          errs ++ [g.ID ++ ": ClockEventReasons.HWSlowdown.PowerBrakeSlowdown " ++ ClockEventsActive] else errs
        errs
      else errs
  if errs.length = 0 then none else some errs

/-- root decode result (SMIOutput in the source); SummaryFailure is an
error value, modelled as an optional message. -/
structure SMIOutput where
  Timestamp : String := ""
  DriverVersion : String := ""
  CUDAVersion : String := ""
  AttachedGPUs : Int := 0
  GPUs : List NvidiaSMIGPU := []
  Raw : String := ""
  Summary : String := ""
  SummaryFailure : Option String := none

/-- line scan of the plain nvidia-smi summary text: each line holding
the ERR! marker is reported with its preceding line when there is one. -/
def FindSummaryErr (s : String) : List String :=
  let lines := splitLines s
  (lines.enum).foldl
    (fun acc p =>
      match p with
      | (i, line) =>
        if !containsSub line "ERR!" then acc
        else if i > 0 then acc ++ [(lines.getD (i - 1) "") ++ "\n" ++ line]
        else acc ++ [line])
    []

/-- document-level anomaly scan: per-device scans, then the summary
failure or the summary ERR! scan, then the device-count mismatch. -/
def SMIOutput.FindGPUErrs (o : SMIOutput) : Option (List String) :=
  let rs : List String := []
  let rs := o.GPUs.foldl (fun (acc : List String) (g : NvidiaSMIGPU) => acc ++ (g.FindErrs).getD []) rs
  let rs :=
    match o.SummaryFailure with
    | some f => rs ++ [f]
    | none =>
      let serrs := FindSummaryErr o.Summary
      if serrs.length > 0 then rs ++ serrs else rs
  let rs :=
    if o.AttachedGPUs ≠ (o.GPUs.length : Int) then
      rs ++ ["AttachedGPUs " ++ toString o.AttachedGPUs ++ " != GPUs " ++ toString o.GPUs.length]
    else rs
  if rs.length = 0 then none else some rs

/-- document-level hardware slowdown scan over every device. -/
def SMIOutput.FindHWSlowdownErrs (o : SMIOutput) : Option (List String) :=
  let errs : List String := []
  let errs := o.GPUs.foldl
    (fun (acc : List String) (g : NvidiaSMIGPU) =>
      match g.ClockEventReasons with
      | none => acc
      | some _ => acc ++ (g.FindHWSlowdownErrs).getD [])
    errs
  if errs.length = 0 then none else some errs

/-- fixed eight-slot schema used for the structured decode. -/
structure RawSMIQueryOutput where
  Timestamp : String := ""
  DriverVersion : String := ""
  CUDAVersion : String := ""
  AttachedGPUs : Int := 0
  GPU0 : Option NvidiaSMIGPU := none
  GPU1 : Option NvidiaSMIGPU := none
  GPU2 : Option NvidiaSMIGPU := none
  GPU3 : Option NvidiaSMIGPU := none
  GPU4 : Option NvidiaSMIGPU := none
  GPU5 : Option NvidiaSMIGPU := none
  GPU6 : Option NvidiaSMIGPU := none
  GPU7 : Option NvidiaSMIGPU := none

/-- reduced header-only schema used by the decoder fallback. -/
structure SMIQueryOutputFallback where
  Timestamp : String := ""
  DriverVersion : String := ""
  CUDAVersion : String := ""
  AttachedGPUs : Int := 0
deriving DecidableEq, Repr

/-- getKey from the source: text before the first colon, trimmed. -/
def getKey (line : String) : String :=
  trimStr (String.mk (takeUntilSub line.data (":").data))

/-- state of the line-rewriting pass; processed lines are kept in
reverse order so the previously emitted line is the head. -/
structure RewriteState where
  processedRev : List String := []
  lastIndent : Nat := 0
  gpuCursor : Nat := 0
  prevGPUID : String := ""

/-- one step of the rewriting loop in ParseSMIQueryOutput: skip blank
and banner lines, flush a pending device identifier as a synthetic ID
line, then apply the first matching rewrite rule. -/
def rewriteStep (st : RewriteState) (line : String) : RewriteState :=
  if line.length = 0 then st
  else if containsSub line "===" || containsSub line "NVSMI LOG" then st
  else
    let lastLine := st.processedRev.headD ""
    let indentLevel := line.length - (trimStr line).length
    let gpuIDLine := if st.prevGPUID ≠ "" then spaces indentLevel ++ "ID: " ++ st.prevGPUID else ""
    let lastKey := getKey lastLine
    let next : String × String × Nat :=
      if strStarts line "GPU 00000" then
        ("GPU" ++ toString st.gpuCursor ++ ":", line, st.gpuCursor + 1)
      else if !(strEnds line ":") && !(containsSub line ":") then
        (line ++ ":", "", st.gpuCursor)
      else if strEnds (trimStr line) "None" then
        (replaceFirst line "None" "null", "", st.gpuCursor)
      else if strStarts lastKey "HW Slowdown" || strStarts lastKey "HW Thermal Slowdown"
          || strStarts lastKey "Process ID" || strStarts lastKey "Process Type"
          || strStarts lastKey "Process Name" then
        let trimmed := trimStr line
        let head := spaces st.lastIndent
        let head :=
          if strStarts lastKey "Process ID" || strStarts lastKey "Process Type"
              || strStarts lastKey "Process Name" then
            head ++ "Process "
          else head
        (head ++ trimmed, "", st.gpuCursor)
      else (line, "", st.gpuCursor)
    match next with
    | (newLine, newPrevGPUID, newCursor) =>
      let processed := if gpuIDLine ≠ "" then gpuIDLine :: st.processedRev else st.processedRev
      { processedRev := newLine :: processed
        lastIndent := newLine.length - (trimStr newLine).length
        gpuCursor := newCursor
        prevGPUID := newPrevGPUID }

/-- the full rewriting pass: split into lines, fold the step, join. -/
def processSMILines (b : String) : String :=
  let final := (splitLines b).foldl rewriteStep {}
  String.intercalate "\n" final.processedRev.reverse

/-- truncation used by the decoder fallback: everything before the
first device-block marker in the rewritten text. -/
def truncAtGPU (s : String) : String :=
  String.mk (takeUntilSub s.data ("\nGPU").data)

/-- identifier propagation after a successful decode: each present
sub-record receives the identifier of its owning device. -/
def assignSubRecordIDs (g : NvidiaSMIGPU) : NvidiaSMIGPU :=
  { g with
    ECCErrors := g.ECCErrors.map (fun e => { e with ID := g.ID })
    Temperature := g.Temperature.map (fun t => { t with ID := g.ID })
    GPUPowerReadings := g.GPUPowerReadings.map (fun p => { p with ID := g.ID })
    FBMemoryUsage := g.FBMemoryUsage.map (fun f => { f with ID := g.ID }) }

/-- ParseSMIQueryOutput from the source, with the two yaml unmarshal
calls abstracted as parameters (the yaml library is outside this
repository); returns the document and the error as Go does, a nil
document being none.  On a full-schema decode failure, the truncated
rewritten text is re-decoded with the reduced schema: if that succeeds
the header-only document is returned with the original error, and if it
fails nil is returned with the fallback error. -/
def ParseSMIQueryOutput
    (unmarshalRaw : String → Except String RawSMIQueryOutput)
    (unmarshalFallback : String → Except String SMIQueryOutputFallback)
    (b : String) : Option SMIOutput × Option String :=
  let processedOutput := processSMILines b
  match unmarshalRaw processedOutput with
  | .error err =>
    match unmarshalFallback (truncAtGPU processedOutput) with
    | .error rerr => (none, some rerr)
    | .ok fb =>
      (some { Timestamp := fb.Timestamp, DriverVersion := fb.DriverVersion,
              CUDAVersion := fb.CUDAVersion, AttachedGPUs := fb.AttachedGPUs },
       some err)
  | .ok raw =>
    let gpus := [raw.GPU0, raw.GPU1, raw.GPU2, raw.GPU3,
                 raw.GPU4, raw.GPU5, raw.GPU6, raw.GPU7].filterMap id
    (some { Timestamp := raw.Timestamp, DriverVersion := raw.DriverVersion,
            CUDAVersion := raw.CUDAVersion, AttachedGPUs := raw.AttachedGPUs,
            GPUs := gpus.map assignSubRecordIDs, Raw := b },
     none)


/-- static and per-snapshot data of one device (DeviceInfo in the nvml
package); the nine metric classes are filled by external query calls,
so their payloads are an arbitrary type M and start at none (the Go
zero value). -/
structure DeviceInfo (M : Type) where
  UUID : String := ""
  MinorNumber : Int := 0
  Bus : Nat := 0
  Device : Nat := 0
  Name : String := ""
  GPUCores : Int := 0
  SupportedEvents : Nat := 0
  ErrorSupported : Bool := false
  ClockEvents : Option M := none
  ClockSpeed : Option M := none
  Memory : Option M := none
  NVLink : Option M := none
  Power : Option M := none
  Temperature : Option M := none
  Utilization : Option M := none
  Processes : Option M := none
  ECCErrors : Option M := none

/-- the nine per-metric query calls of instance.Get, abstracted over
the nvml library (outside this repository); each is keyed by the device
identifier and may fail. -/
structure Queries (M : Type) where
  getClockEvents : String → Except String M
  getClockSpeed : String → Except String M
  getMemory : String → Except String M
  getNVLink : String → Except String M
  getPower : String → Except String M
  getTemperature : String → Except String M
  getUtilization : String → Except String M
  getProcesses : String → Except String M
  getECCErrors : String → Except String M

/-- snapshot result (Output in the nvml package). -/
structure NVMLOutput (M : Type) where
  Exists : Bool := false
  Message : String := ""
  DeviceInfos : List (DeviceInfo M) := []

/-- mutable state of the monitor instance: nil handles are false, the
cancelled flag models the root context cancellation, and devices keeps
the map values in iteration order (Go map iteration order is
arbitrary). -/
structure InstanceState (M : Type) where
  nvmlLib : Bool := false
  nvmlExists : Bool := false
  nvmlExistsMsg : String := ""
  devices : List (DeviceInfo M) := []
  eventSet : Bool := false
  cancelled : Bool := false

/-- one device pass of instance.Get: a fresh record with the static
fields is filled metric by metric; the first failing query stops and
returns the partially filled record with the error. -/
def getDevice (q : Queries M) (d : DeviceInfo M) : DeviceInfo M × Option String :=
  let base : DeviceInfo M :=
    { UUID := d.UUID, MinorNumber := d.MinorNumber, Bus := d.Bus, Device := d.Device,
      Name := d.Name, GPUCores := d.GPUCores, SupportedEvents := d.SupportedEvents,
      ErrorSupported := d.ErrorSupported }
  match q.getClockEvents d.UUID with
  | .error e => (base, some e)
  | .ok v1 =>
    let r := { base with ClockEvents := some v1 }
    match q.getClockSpeed d.UUID with
    | .error e => (r, some e)
    | .ok v2 =>
      let r := { r with ClockSpeed := some v2 }
      match q.getMemory d.UUID with
      | .error e => (r, some e)
      | .ok v3 =>
        let r := { r with Memory := some v3 }
        match q.getNVLink d.UUID with
        | .error e => (r, some e)
        | .ok v4 =>
          let r := { r with NVLink := some v4 }
          match q.getPower d.UUID with
          | .error e => (r, some e)
          | .ok v5 =>
            let r := { r with Power := some v5 }
            match q.getTemperature d.UUID with
            | .error e => (r, some e)
            | .ok v6 =>
              let r := { r with Temperature := some v6 }
              match q.getUtilization d.UUID with
              | .error e => (r, some e)
              | .ok v7 =>
                let r := { r with Utilization := some v7 }
                match q.getProcesses d.UUID with
                | .error e => (r, some e)
                | .ok v8 =>
                  let r := { r with Processes := some v8 }
                  match q.getECCErrors d.UUID with
                  | .error e => (r, some e)
                  | .ok v9 => ({ r with ECCErrors := some v9 }, none)

/-- the device loop of instance.Get: each device is appended before its
queries run, and the first failure aborts the loop keeping everything
appended so far. -/
def getLoop (q : Queries M) : List (DeviceInfo M) → List (DeviceInfo M) × Option String
  | [] => ([], none)
  | d :: rest =>
    match getDevice q d with
    | (di, some e) => ([di], some e)
    | (di, none) =>
      match getLoop q rest with
      | (tail, err) => (di :: tail, err)

/-- lexicographic order on character lists, the order Go uses to
compare identifier strings. -/
def charsLe : List Char → List Char → Bool
  | [], _ => true
  | _ :: _, [] => false
  | c :: cs, d :: ds => if c < d then true else if c = d then charsLe cs ds else false

/-- Go string comparison for device identifiers. -/
def uuidLe (a b : String) : Bool :=
  charsLe a.data b.data

/-- the final sort.Slice of instance.Get: order by device identifier. -/
def sortDevs (l : List (DeviceInfo M)) : List (DeviceInfo M) :=
  List.insertionSort (fun a b => uuidLe a.UUID b.UUID = true) l

/-- instance.Get from the nvml package: nil when the library handle is
gone, otherwise the device loop; the device list is sorted only on the
fully successful path, the error path returns the list as iterated. -/
def instGet (inst : InstanceState M) (q : Queries M) : Option (NVMLOutput M) × Option String :=
  if inst.nvmlLib = false then (none, some "nvml not initialized")
  else
    match getLoop q inst.devices with
    | (devs, some e) =>
      (some { Exists := inst.nvmlExists, Message := inst.nvmlExistsMsg, DeviceInfos := devs }, some e)
    | (devs, none) =>
      (some { Exists := inst.nvmlExists, Message := inst.nvmlExistsMsg, DeviceInfos := sortDevs devs }, none)

/-- instance.Shutdown from the nvml package: a nil library handle is an
immediate no-op success; otherwise cancel the loop, free the event set
(a failing free returns early with the handles still set), then shut
down the library (a failing shutdown keeps the library handle); the
freeOk and shutdownOk flags model the two external call outcomes. -/
def Shutdown (inst : InstanceState M) (freeOk shutdownOk : Bool) : InstanceState M × Option String :=
  if inst.nvmlLib = false then (inst, none)
  else
    let inst1 := { inst with cancelled := true }
    if inst1.eventSet && !freeOk then (inst1, some "failed to free event set")
    else
      let inst2 := { inst1 with eventSet := false }
      if !shutdownOk then (inst2, some "failed to shutdown NVML")
      else ({ inst2 with nvmlLib := false }, none)

/-- outcome of one eventSet.Wait call. -/
inductive WaitResult where
  | timeout : WaitResult
  | failure (err : String) : WaitResult
  | success (eventType : Nat) (eventData : Nat) : WaitResult

/-- published event record (XidEvent in the nvml package); Detail is
the static fault-table entry, modelled as an opaque string. -/
structure XidEvent where
  EventType : Nat := 0
  Xid : Nat := 0
  XidCriticalError : Bool := false
  Detail : Option String := none
  Message : String := ""
  Error : Option String := none
deriving DecidableEq, Repr

/-- observable outcome of one iteration of pollXidEvents. -/
inductive PollAction where
  | exit : PollAction
  | continueNoPublish : PollAction
  | publish (ev : XidEvent) : PollAction
deriving DecidableEq, Repr

/-- nvml.EventTypeXidCriticalError. -/
def eventTypeXidCriticalError : Nat := 8

/-- one iteration of the pollXidEvents loop: the cancellation check at
the top, then the wait call; a timeout re-polls without publishing, a
non-timeout failure publishes a wait-failure event (unless cancelled at
the send), and a success publishes the decoded event (unless cancelled
at the send); the xid detail lookup table is outside this repository
and is a parameter. -/
def pollIteration (getDetail : Nat → Option String) (doneAtTop : Bool)
    (w : WaitResult) (doneAtPublish : Bool) : PollAction :=
  if doneAtTop then PollAction.exit
  else
    match w with
    | WaitResult.timeout => PollAction.continueNoPublish
    | WaitResult.failure err =>
      if doneAtPublish then PollAction.exit
      else PollAction.publish
        { Message := "event set wait returned non-success",
          Error := some ("event set wait failed: " ++ err) }
    | WaitResult.success et xid =>
      let xidDetail := if xid > 0 then getDetail xid else none
      let msg :=
        if xid > 0 && (getDetail xid).isSome then "received event with a known xid"
        else "received event but xid unknown"
      if doneAtPublish then PollAction.exit
      else PollAction.publish
        { EventType := et, Xid := xid,
          XidCriticalError := et == eventTypeXidCriticalError,
          Detail := xidDetail, Message := msg }

/-- classification contract of one unit-suffixed getter on one field: a
literal N/A value yields exactly the absence sentinel, and a non-N/A
value without the expected suffix yields exactly the format error with
the getter message — so neither case can yield the opposite error. -/
def classifiesAbsenceAndFormat (f sfx msg : String) (r : Except ParseErr Frac) : Prop :=
  (f = "N/A" → r = .error ParseErr.notAvailable) ∧
  (f ≠ "N/A" → strEnds f sfx = false → r = .error (ParseErr.formatErr msg))

/-- true when an anomaly scan result is not the empty non-nil list. -/
def nilWhenEmpty (o : Option (List String)) : Bool :=
  match o with
  | none => true
  | some l => !l.isEmpty

def c1tNA : SMIGPUTemperature :=
  { Current := "N/A", Limit := "N/A", Shutdown := "N/A", ShutdownLimit := "N/A",
    Slowdown := "N/A", SlowdownLimit := "N/A" }

def c1pNA : SMIGPUPowerReadings :=
  { PowerDraw := "N/A", CurrentPowerLimit := "N/A", RequestedPowerLimit := "N/A",
    DefaultPowerLimit := "N/A", MinPowerLimit := "N/A", MaxPowerLimit := "N/A" }

def c1tBad : SMIGPUTemperature :=
  { Current := "xyz", Limit := "xyz", Shutdown := "xyz", ShutdownLimit := "xyz",
    Slowdown := "xyz", SlowdownLimit := "xyz" }

def c1pBad : SMIGPUPowerReadings :=
  { PowerDraw := "xyz", CurrentPowerLimit := "xyz", RequestedPowerLimit := "xyz",
    DefaultPowerLimit := "xyz", MinPowerLimit := "xyz", MaxPowerLimit := "xyz" }

/-- the concrete instance given in the spec: current 75 C, limit N/A,
shutdown 95 C. -/
def c2tm : SMIGPUTemperature :=
  { Current := "75 C", Limit := "N/A", Shutdown := "95 C" }

/-- normalization result of c2tm, as computed by Parse. -/
def c2pt : ParsedTemperature :=
  { ID := "", CurrentHumanized := "75 C", CurrentCelsius := "75.00",
    LimitHumanized := "N/A", LimitCelsius := "", UsedPercent := "78.95",
    ShutdownHumanized := "95 C", ShutdownLimit := "", ShutdownCelsius := "95.00",
    SlowdownHumanized := "", SlowdownLimit := "", SlowdownCelsius := "" }

/-- counterexample input for the claimed resolution order: the shutdown
field parses to zero, the slowdown field is positive. -/
def c2cex : SMIGPUTemperature :=
  { Current := "75 C", Limit := "N/A", Shutdown := "0 C", Slowdown := "50 C" }

def c3uR : String → Except String RawSMIQueryOutput :=
  fun _ => .error "full decode failed"

def c3uF : String → Except String SMIQueryOutputFallback :=
  fun _ => .ok { Timestamp := "ts", DriverVersion := "dv", CUDAVersion := "cv", AttachedGPUs := 2 }

def c10uR : String → Except String RawSMIQueryOutput :=
  fun _ => .error "original decode error"

def c10uF : String → Except String SMIQueryOutputFallback :=
  fun _ => .error "fallback decode failed"

/-- spec test instance: top-level flag inactive, both sub-flags active. -/
def c5g : NvidiaSMIGPU :=
  { ID := "GPU 00000000:53:00.0",
    ClockEventReasons := some
      { HWSlowdown := "Not Active", HWThermalSlowdown := "Active", HWPowerBrakeSlowdown := "Active" } }

def c7inst : InstanceState Unit :=
  { nvmlLib := true, nvmlExists := true, nvmlExistsMsg := "",
    devices := [{ UUID := "b" }, { UUID := "a" }], eventSet := true, cancelled := false }

/-- queries failing at the first metric of device a only. -/
def c7q : Queries Unit :=
  { getClockEvents := fun u => if u = "a" then .error "boom" else .ok (),
    getClockSpeed := fun _ => .ok (), getMemory := fun _ => .ok (), getNVLink := fun _ => .ok (),
    getPower := fun _ => .ok (), getTemperature := fun _ => .ok (), getUtilization := fun _ => .ok (),
    getProcesses := fun _ => .ok (), getECCErrors := fun _ => .ok () }

/-- queries that always succeed. -/
def c7sq : Queries Unit :=
  { getClockEvents := fun _ => .ok (), getClockSpeed := fun _ => .ok (), getMemory := fun _ => .ok (),
    getNVLink := fun _ => .ok (), getPower := fun _ => .ok (), getTemperature := fun _ => .ok (),
    getUtilization := fun _ => .ok (), getProcesses := fun _ => .ok (), getECCErrors := fun _ => .ok () }

/-- a device record with every metric filled. -/
def c7dFull (u : String) : DeviceInfo Unit :=
  { UUID := u, ClockEvents := some (), ClockSpeed := some (), Memory := some (), NVLink := some (),
    Power := some (), Temperature := some (), Utilization := some (), Processes := some (),
    ECCErrors := some () }

def c8gd : Nat → Option String := fun _ => none

/-- the wait-failure event published for a failed wait with error boom. -/
def c8failEv : XidEvent :=
  { Message := "event set wait returned non-success", Error := some "event set wait failed: boom" }

/-- the event published for a successful wait of type 8 with xid 79
when the detail table has no entry. -/
def c8okEv : XidEvent :=
  { EventType := 8, Xid := 79, XidCriticalError := true, Detail := none,
    Message := "received event but xid unknown" }

def c9inst : InstanceState Unit :=
  { nvmlLib := true, nvmlExists := true, eventSet := true }

def c9after : InstanceState Unit :=
  { nvmlLib := false, nvmlExists := true, eventSet := false, cancelled := true }

def c9q : Queries Unit :=
  { getClockEvents := fun _ => .ok (), getClockSpeed := fun _ => .ok (), getMemory := fun _ => .ok (),
    getNVLink := fun _ => .ok (), getPower := fun _ => .ok (), getTemperature := fun _ => .ok (),
    getUtilization := fun _ => .ok (), getProcesses := fun _ => .ok (), getECCErrors := fun _ => .ok () }

theorem classify_parseSuffixedValue (f sfx msg : String) :
    classifiesAbsenceAndFormat f sfx msg (parseSuffixedValue f sfx msg) := by
  refine ⟨fun h => ?_, fun h1 h2 => ?_⟩
  · simp [parseSuffixedValue, h]
  · simp [parseSuffixedValue, h1, h2]

/-- C1: every unit-suffixed scalar getter (the six temperature getters
and the six power getters) fails with the absence sentinel exactly on
the literal N/A input, and with a format error on any non-N/A input
lacking the expected suffix — never the opposite classification. -/
theorem C1_unit_getter_classification (t : SMIGPUTemperature) (p : SMIGPUPowerReadings) :
    classifiesAbsenceAndFormat t.Current " C"
      ("invalid GPU current temperature: " ++ t.Current ++ " (expected celsius)") t.GetCurrentCelsius
    ∧ classifiesAbsenceAndFormat t.Limit " C"
      ("invalid GPU t.limit temperature: " ++ t.Limit ++ " (expected celsius)") t.GetLimitCelsius
    ∧ classifiesAbsenceAndFormat t.Shutdown " C"
      ("invalid GPU t.shutdown temperature: " ++ t.Limit ++ " (expected celsius)") t.GetShutdownCelsius
    ∧ classifiesAbsenceAndFormat t.ShutdownLimit " C"
      ("invalid GPU t.shutdown limit temperature: " ++ t.Limit ++ " (expected celsius)") t.GetShutdownLimitCelsius
    ∧ classifiesAbsenceAndFormat t.Slowdown " C"
      ("invalid GPU t.slowdown temperature: " ++ t.Limit ++ " (expected celsius)") t.GetSlowdownCelsius
    ∧ classifiesAbsenceAndFormat t.SlowdownLimit " C"
      ("invalid GPU t.slowdown limit temperature: " ++ t.Limit ++ " (expected celsius)") t.GetSlowdownLimitCelsius
    ∧ classifiesAbsenceAndFormat p.PowerDraw " W"
      ("invalid power draw: " ++ p.PowerDraw ++ " (expected watts)") p.GetPowerDrawW
    ∧ classifiesAbsenceAndFormat p.CurrentPowerLimit " W"
      ("invalid current power limit: " ++ p.CurrentPowerLimit ++ " (expected watts)") p.GetCurrentPowerLimitW
    ∧ classifiesAbsenceAndFormat p.RequestedPowerLimit " W"
      ("invalid current power limit: " ++ p.RequestedPowerLimit ++ " (expected watts)") p.GetRequestedPowerLimitW
    ∧ classifiesAbsenceAndFormat p.DefaultPowerLimit " W"
      ("invalid current power limit: " ++ p.DefaultPowerLimit ++ " (expected watts)") p.GetDefaultPowerLimitW
    ∧ classifiesAbsenceAndFormat p.MinPowerLimit " W"
      ("invalid current power limit: " ++ p.MinPowerLimit ++ " (expected watts)") p.GetMinPowerLimitW
    ∧ classifiesAbsenceAndFormat p.MaxPowerLimit " W"
      ("invalid current power limit: " ++ p.MaxPowerLimit ++ " (expected watts)") p.GetMaxPowerLimitW :=
  ⟨classify_parseSuffixedValue _ _ _, classify_parseSuffixedValue _ _ _,
   classify_parseSuffixedValue _ _ _, classify_parseSuffixedValue _ _ _,
   classify_parseSuffixedValue _ _ _, classify_parseSuffixedValue _ _ _,
   classify_parseSuffixedValue _ _ _, classify_parseSuffixedValue _ _ _,
   classify_parseSuffixedValue _ _ _, classify_parseSuffixedValue _ _ _,
   classify_parseSuffixedValue _ _ _, classify_parseSuffixedValue _ _ _⟩

/-- C1 witness: the classification evaluated at a record with all
fields N/A and at a record with all fields the unsuffixed value xyz. -/
theorem C1_unit_getter_classification_witness :
    c1tNA.GetCurrentCelsius = .error ParseErr.notAvailable
    ∧ c1tNA.GetLimitCelsius = .error ParseErr.notAvailable
    ∧ c1tNA.GetShutdownCelsius = .error ParseErr.notAvailable
    ∧ c1tNA.GetShutdownLimitCelsius = .error ParseErr.notAvailable
    ∧ c1tNA.GetSlowdownCelsius = .error ParseErr.notAvailable
    ∧ c1tNA.GetSlowdownLimitCelsius = .error ParseErr.notAvailable
    ∧ c1pNA.GetPowerDrawW = .error ParseErr.notAvailable
    ∧ c1pNA.GetCurrentPowerLimitW = .error ParseErr.notAvailable
    ∧ c1pNA.GetRequestedPowerLimitW = .error ParseErr.notAvailable
    ∧ c1pNA.GetDefaultPowerLimitW = .error ParseErr.notAvailable
    ∧ c1pNA.GetMinPowerLimitW = .error ParseErr.notAvailable
    ∧ c1pNA.GetMaxPowerLimitW = .error ParseErr.notAvailable
    ∧ c1tBad.GetCurrentCelsius = .error (ParseErr.formatErr ("invalid GPU current temperature: " ++ c1tBad.Current ++ " (expected celsius)"))
    ∧ c1tBad.GetLimitCelsius = .error (ParseErr.formatErr ("invalid GPU t.limit temperature: " ++ c1tBad.Limit ++ " (expected celsius)"))
    ∧ c1tBad.GetShutdownCelsius = .error (ParseErr.formatErr ("invalid GPU t.shutdown temperature: " ++ c1tBad.Limit ++ " (expected celsius)"))
    ∧ c1tBad.GetShutdownLimitCelsius = .error (ParseErr.formatErr ("invalid GPU t.shutdown limit temperature: " ++ c1tBad.Limit ++ " (expected celsius)"))
    ∧ c1tBad.GetSlowdownCelsius = .error (ParseErr.formatErr ("invalid GPU t.slowdown temperature: " ++ c1tBad.Limit ++ " (expected celsius)"))
    ∧ c1tBad.GetSlowdownLimitCelsius = .error (ParseErr.formatErr ("invalid GPU t.slowdown limit temperature: " ++ c1tBad.Limit ++ " (expected celsius)"))
    ∧ c1pBad.GetPowerDrawW = .error (ParseErr.formatErr ("invalid power draw: " ++ c1pBad.PowerDraw ++ " (expected watts)"))
    ∧ c1pBad.GetCurrentPowerLimitW = .error (ParseErr.formatErr ("invalid current power limit: " ++ c1pBad.CurrentPowerLimit ++ " (expected watts)"))
    ∧ c1pBad.GetRequestedPowerLimitW = .error (ParseErr.formatErr ("invalid current power limit: " ++ c1pBad.RequestedPowerLimit ++ " (expected watts)"))
    ∧ c1pBad.GetDefaultPowerLimitW = .error (ParseErr.formatErr ("invalid current power limit: " ++ c1pBad.DefaultPowerLimit ++ " (expected watts)"))
    ∧ c1pBad.GetMinPowerLimitW = .error (ParseErr.formatErr ("invalid current power limit: " ++ c1pBad.MinPowerLimit ++ " (expected watts)"))
    ∧ c1pBad.GetMaxPowerLimitW = .error (ParseErr.formatErr ("invalid current power limit: " ++ c1pBad.MaxPowerLimit ++ " (expected watts)")) := by
  obtain ⟨a1, a2, a3, a4, a5, a6, a7, a8, a9, a10, a11, a12⟩ :=
    C1_unit_getter_classification c1tNA c1pNA
  obtain ⟨b1, b2, b3, b4, b5, b6, b7, b8, b9, b10, b11, b12⟩ :=
    C1_unit_getter_classification c1tBad c1pBad
  exact ⟨a1.1 rfl, a2.1 rfl, a3.1 rfl, a4.1 rfl, a5.1 rfl, a6.1 rfl,
         a7.1 rfl, a8.1 rfl, a9.1 rfl, a10.1 rfl, a11.1 rfl, a12.1 rfl,
         b1.2 (by decide) rfl, b2.2 (by decide) rfl, b3.2 (by decide) rfl,
         b4.2 (by decide) rfl, b5.2 (by decide) rfl, b6.2 (by decide) rfl,
         b7.2 (by decide) rfl, b8.2 (by decide) rfl, b9.2 (by decide) rfl,
         b10.2 (by decide) rfl, b11.2 (by decide) rfl, b12.2 (by decide) rfl⟩

/-- C2 counterexample: with current 75 C, limit N/A, shutdown 0 C and
slowdown 50 C, the shutdown chain is available (parses to 0) so the
claimed first-available rule reports 0.0, but Parse falls through to
the positive slowdown value and reports 150.00. -/
theorem C2_resolution_counterexample :
    (SMIGPUTemperature.Parse c2cex).map ParsedTemperature.UsedPercent = .ok "150.00"
    ∧ specTempUsedPercent c2cex = "0.0" :=
  ⟨rfl, rfl⟩

theorem firstPositiveVal (sh sl : Frac) :
    (if Frac.eqv (if Frac.lt fracZero sh then sh else fracZero) fracZero ∧ Frac.lt fracZero sl then sl
     else if Frac.lt fracZero sh then sh else fracZero)
    = (if Frac.lt fracZero sh then sh else if Frac.lt fracZero sl then sl else fracZero) := by
  by_cases h1 : Frac.lt fracZero sh
  · have hne : ¬ Frac.eqv sh fracZero := by
      simp only [Frac.lt, fracZero, zero_mul, mul_one] at h1
      simp only [Frac.eqv, fracZero, zero_mul, mul_one]
      omega
    simp [h1, hne]
  · have hz : Frac.eqv fracZero fracZero := by simp [Frac.eqv]
    by_cases h2 : Frac.lt fracZero sl <;> simp [h1, h2, hz]

/-- C2 (amended): whenever Parse succeeds, the used-percent it reports
equals current over limit times 100 at two decimals, where the limit is
the explicit limit field when that parses (any sign), and otherwise the
first positive value of the shutdown chain then the slowdown chain; it
is the literal 0.0 when the limit so resolved is not positive. -/
theorem C2_usedPercent_amended (tm : SMIGPUTemperature) (pt : ParsedTemperature)
    (h : tm.Parse = .ok pt) : pt.UsedPercent = amendedTempUsedPercent tm := by
  unfold SMIGPUTemperature.Parse at h
  cases hc : tm.GetCurrentCelsius with
  | error e => rw [hc] at h; exact absurd h (by simp)
  | ok cur =>
    rw [hc] at h
    simp only [Except.ok.injEq] at h
    subst h
    unfold amendedTempUsedPercent
    rw [hc]
    simp only []
    unfold SMIGPUTemperature.limitPair
    cases hl : tm.GetLimitCelsius with
    | ok v => simp only []
    | error e2 =>
      simp only []
      rw [firstPositiveVal]

/-- C2 witness: the spec instance current 75 C, limit N/A, shutdown
95 C yields used-percent 78.95 through the amended rule and Parse. -/
theorem C2_usedPercent_amended_witness :
    c2pt.UsedPercent = amendedTempUsedPercent c2tm ∧ amendedTempUsedPercent c2tm = "78.95" :=
  ⟨C2_usedPercent_amended c2tm c2pt rfl, rfl⟩

/-- C3: when the full-schema decode of the rewritten text fails but the
header-only decode of the text truncated at the first device-block
marker succeeds, ParseSMIQueryOutput returns a document holding exactly
the decoded header fields (timestamp, driver version, CUDA version,
attached-device count) together with the original decode error. -/
theorem C3_fallback_header_document
    (uR : String → Except String RawSMIQueryOutput)
    (uF : String → Except String SMIQueryOutputFallback)
    (b e : String) (fb : SMIQueryOutputFallback)
    (h1 : uR (processSMILines b) = .error e)
    (h2 : uF (truncAtGPU (processSMILines b)) = .ok fb) :
    ParseSMIQueryOutput uR uF b =
      (some { Timestamp := fb.Timestamp, DriverVersion := fb.DriverVersion,
              CUDAVersion := fb.CUDAVersion, AttachedGPUs := fb.AttachedGPUs },
       some e) := by
  unfold ParseSMIQueryOutput
  simp only [h1, h2]

/-- C3 witness: a decoder pair where the full decode always fails and
the header decode always succeeds, on an arbitrary input. -/
theorem C3_fallback_header_document_witness :
    ParseSMIQueryOutput c3uR c3uF "x" =
      (some { Timestamp := "ts", DriverVersion := "dv", CUDAVersion := "cv", AttachedGPUs := 2 },
       some "full decode failed") :=
  C3_fallback_header_document c3uR c3uF "x" "full decode failed"
    { Timestamp := "ts", DriverVersion := "dv", CUDAVersion := "cv", AttachedGPUs := 2 } rfl rfl

/-- C10: when the full-schema decode fails and the header-only decode
of the truncated text also fails, ParseSMIQueryOutput returns no
document together with the fallback decode error, not the original
decode error. -/
theorem C10_double_failure_returns_fallback_error
    (uR : String → Except String RawSMIQueryOutput)
    (uF : String → Except String SMIQueryOutputFallback)
    (b e rerr : String)
    (h1 : uR (processSMILines b) = .error e)
    (h2 : uF (truncAtGPU (processSMILines b)) = .error rerr) :
    ParseSMIQueryOutput uR uF b = (none, some rerr) := by
  unfold ParseSMIQueryOutput
  simp only [h1, h2]

/-- C10 witness: both decoders fail; the fallback error is returned. -/
theorem C10_double_failure_returns_fallback_error_witness :
    ParseSMIQueryOutput c10uR c10uF "x" = (none, some "fallback decode failed") :=
  C10_double_failure_returns_fallback_error c10uR c10uF "x" "original decode error"
    "fallback decode failed" rfl rfl

/-- C4: the claim fails on the code.  GetShutdownCelsius formats the
limit field value (95 C) into its error although the offending field is
the shutdown field (abc), and GetRequestedPowerLimitW names the current
power limit in its message although the offending field is the
requested power limit; evaluated here at the failing inputs. -/
theorem C4_format_error_names_wrong_field :
    (({ Shutdown := "abc", Limit := "95 C" } : SMIGPUTemperature)).GetShutdownCelsius
        = .error (ParseErr.formatErr "invalid GPU t.shutdown temperature: 95 C (expected celsius)")
    ∧ (({ RequestedPowerLimit := "abc" } : SMIGPUPowerReadings)).GetRequestedPowerLimitW
        = .error (ParseErr.formatErr "invalid current power limit: abc (expected watts)") :=
  ⟨rfl, rfl⟩

/-- C5: when the top-level HW Slowdown flag of a device is anything but
Active (or the clock-event record is absent), the hardware-slowdown
scan returns nil regardless of the two sub-flags. -/
theorem C5_hwslowdown_shortcircuit (g : NvidiaSMIGPU)
    (h : g.ClockEventReasons.map SMIClockEventReasons.HWSlowdown ≠ some "Active") :
    g.FindHWSlowdownErrs = none := by
  unfold NvidiaSMIGPU.FindHWSlowdownErrs
  cases hc : g.ClockEventReasons with
  | none => rfl
  | some cer =>
    rw [hc] at h
    simp at h
    simp [ClockEventsActive, h]

/-- C5 witness: top-level flag Not Active with both sub-flags Active
yields no anomalies. -/
theorem C5_hwslowdown_shortcircuit_witness : c5g.FindHWSlowdownErrs = none :=
  C5_hwslowdown_shortcircuit c5g (by decide)

theorem nilWhenEmpty_lengthGuard (l : List String) :
    nilWhenEmpty (if l.length = 0 then none else some l) = true := by
  cases l <;> simp [nilWhenEmpty]

/-- C6: none of the anomaly scans ever returns an empty non-nil list:
the ECC volatile scan, the per-device scan, the per-device and
document-level hardware-slowdown scans and the document-level scan all
return nil (none) whenever no anomaly is found. -/
theorem C6_scans_nil_when_empty :
    ∀ (e : SMIECCErrors) (g : NvidiaSMIGPU) (o : SMIOutput),
      nilWhenEmpty e.FindVolatileUncorrectableErrs = true
      ∧ nilWhenEmpty g.FindErrs = true
      ∧ nilWhenEmpty g.FindHWSlowdownErrs = true
      ∧ nilWhenEmpty o.FindGPUErrs = true
      ∧ nilWhenEmpty o.FindHWSlowdownErrs = true := by
  intro e g o
  exact ⟨nilWhenEmpty_lengthGuard _, nilWhenEmpty_lengthGuard _, nilWhenEmpty_lengthGuard _,
         nilWhenEmpty_lengthGuard _, nilWhenEmpty_lengthGuard _⟩

/-- C7 counterexample: with map iteration order b then a and the first
metric query of device a failing, Get returns the partial device list
[b, a] together with the error, and that list is not sorted by
identifier. -/
theorem C7_partial_result_unsorted_counterexample :
    ((instGet c7inst c7q).1.map (fun o => o.DeviceInfos.map (fun d => d.UUID)) = some ["b", "a"])
    ∧ (instGet c7inst c7q).2 = some "boom"
    ∧ uuidLe "b" "a" = false := by
  exact ⟨rfl, rfl, rfl⟩

theorem charsLe_total : ∀ a b : List Char, charsLe a b = true ∨ charsLe b a = true
  | [], _ => Or.inl rfl
  | _ :: _, [] => Or.inr rfl
  | c :: cs, d :: ds => by
    rcases lt_trichotomy c d with h | h | h
    · left; simp [charsLe, h]
    · subst h
      rcases charsLe_total cs ds with ih | ih
      · left; simp [charsLe, ih]
      · right; simp [charsLe, ih]
    · right; simp [charsLe, h]

theorem charsLe_trans : ∀ a b c : List Char,
    charsLe a b = true → charsLe b c = true → charsLe a c = true
  | [], _, _, _, _ => rfl
  | x :: xs, [], _, h1, _ => by simp [charsLe] at h1
  | x :: xs, y :: ys, [], _, h2 => by simp [charsLe] at h2
  | x :: xs, y :: ys, z :: zs, h1, h2 => by
    simp only [charsLe] at h1 h2 ⊢
    by_cases hxy : x < y
    · by_cases hyz : y < z
      · simp [lt_trans hxy hyz]
      · have hyz2 : y = z := by
          by_contra hne
          simp [hyz, hne] at h2
        subst hyz2
        simp [hxy]
    · have hxy2 : x = y := by
        by_contra hne
        simp [hxy, hne] at h1
      subst hxy2
      by_cases hxz : x < z
      · simp [hxz]
      · have hxz2 : x = z := by
          by_contra hne
          simp [hxz, hne] at h2
        subst hxz2
        simp only [lt_irrefl, if_false, if_pos rfl] at h1 h2 ⊢
        exact charsLe_trans xs ys zs h1 h2

theorem sortDevs_sorted (M : Type) (l : List (DeviceInfo M)) :
    (sortDevs l).Pairwise (fun a b => uuidLe a.UUID b.UUID = true) := by
  haveI : IsTotal (DeviceInfo M) (fun a b => uuidLe a.UUID b.UUID = true) :=
    ⟨fun a b => charsLe_total a.UUID.data b.UUID.data⟩
  haveI : IsTrans (DeviceInfo M) (fun a b => uuidLe a.UUID b.UUID = true) :=
    ⟨fun a b c => charsLe_trans a.UUID.data b.UUID.data c.UUID.data⟩
  exact List.sorted_insertionSort _ l

/-- C7 (amended): a device list returned by a fully successful Get is
sorted by device identifier; the partial list returned together with an
error is in device-map iteration order and need not be sorted. -/
theorem C7_success_snapshot_sorted (M : Type) (inst : InstanceState M) (q : Queries M)
    (out : NVMLOutput M) (h : instGet inst q = (some out, none)) :
    out.DeviceInfos.Pairwise (fun a b => uuidLe a.UUID b.UUID = true) := by
  unfold instGet at h
  by_cases h0 : inst.nvmlLib = false
  · rw [if_pos h0] at h
    exact absurd h (by simp)
  · rw [if_neg h0] at h
    rcases hL : getLoop q inst.devices with ⟨devs, err⟩
    rw [hL] at h
    cases err with
    | some e => simp at h
    | none =>
      simp only [Prod.mk.injEq, Option.some.injEq] at h
      obtain ⟨hout, -⟩ := h
      rw [← hout]
      exact sortDevs_sorted M devs

/-- C7 witness: a fully successful snapshot over devices iterated as b
then a comes back sorted as a then b. -/
theorem C7_success_snapshot_sorted_witness :
    (NVMLOutput.DeviceInfos
        { Exists := true, Message := "", DeviceInfos := [c7dFull "a", c7dFull "b"] }).Pairwise
      (fun a b => uuidLe a.UUID b.UUID = true) :=
  C7_success_snapshot_sorted Unit c7inst c7sq
    { Exists := true, Message := "", DeviceInfos := [c7dFull "a", c7dFull "b"] } rfl

/-- C8: in every iteration of the event loop, a wait that ends in
timeout never publishes an event (the iteration exits on cancellation
or re-polls); an event is published only for a non-timeout wait failure
(carrying the wait error and the zero fault code) or for a successful
wait (carrying the decoded fault code and no error). -/
theorem C8_timeout_never_publishes (gd : Nat → Option String) (dt dp : Bool) :
    (pollIteration gd dt WaitResult.timeout dp = PollAction.exit
      ∨ pollIteration gd dt WaitResult.timeout dp = PollAction.continueNoPublish)
    ∧ (∀ err ev, pollIteration gd dt (WaitResult.failure err) dp = PollAction.publish ev →
        ev.Error = some ("event set wait failed: " ++ err) ∧ ev.Xid = 0
          ∧ ev.Message = "event set wait returned non-success")
    ∧ (∀ et xid ev, pollIteration gd dt (WaitResult.success et xid) dp = PollAction.publish ev →
        ev.Xid = xid ∧ ev.Error = none ∧ ev.EventType = et
          ∧ ev.XidCriticalError = (et == eventTypeXidCriticalError)) := by
  refine ⟨?_, ?_, ?_⟩
  · by_cases hdt : dt <;> simp [pollIteration, hdt]
  · intro err ev h
    by_cases hdt : dt <;> by_cases hdp : dp <;> simp [pollIteration, hdt, hdp] at h
    rw [← h]
    exact ⟨rfl, rfl, rfl⟩
  · intro et xid ev h
    by_cases hdt : dt <;> by_cases hdp : dp <;> simp [pollIteration, hdt, hdp] at h
    rw [← h]
    exact ⟨rfl, rfl, rfl, rfl⟩

/-- C8 witness: the three parts at concrete inputs: timeout publishes
nothing, a failed wait with error boom publishes the wait-failure
event, a successful wait of type 8 with xid 79 publishes the decoded
event. -/
theorem C8_timeout_never_publishes_witness :
    (pollIteration c8gd false WaitResult.timeout false = PollAction.exit
      ∨ pollIteration c8gd false WaitResult.timeout false = PollAction.continueNoPublish)
    ∧ (c8failEv.Error = some ("event set wait failed: " ++ "boom") ∧ c8failEv.Xid = 0
        ∧ c8failEv.Message = "event set wait returned non-success")
    ∧ (c8okEv.Xid = 79 ∧ c8okEv.Error = none ∧ c8okEv.EventType = 8
        ∧ c8okEv.XidCriticalError = ((8 : Nat) == eventTypeXidCriticalError)) := by
  obtain ⟨w1, w2, w3⟩ := C8_timeout_never_publishes c8gd false false
  exact ⟨w1, w2 "boom" c8failEv rfl, w3 8 79 c8okEv rfl⟩

/-- C9: after a Shutdown that returns no error, the library handle is
nil, so any further Shutdown is a no-op returning no error and leaving
the state unchanged, and any Get returns the not-initialized error. -/
theorem C9_shutdown_idempotent_get_fails (M : Type) (inst inst2 : InstanceState M)
    (f s : Bool) (h : Shutdown inst f s = (inst2, none)) :
    (∀ f2 s2, Shutdown inst2 f2 s2 = (inst2, none))
    ∧ (∀ q : Queries M, instGet inst2 q = (none, some "nvml not initialized")) := by
  have hlib : inst2.nvmlLib = false := by
    unfold Shutdown at h
    by_cases h0 : inst.nvmlLib = false
    · rw [if_pos h0] at h
      obtain ⟨rfl, -⟩ := Prod.mk.injEq .. ▸ h
      exact h0
    · rw [if_neg h0] at h
      by_cases h1 : inst.eventSet && !f
      · simp [h1] at h
      · simp only [h1, if_false] at h
        by_cases h2 : !s
        · simp [h2] at h
        · simp only [h2, if_false] at h
          obtain ⟨rfl, -⟩ := Prod.mk.injEq .. ▸ h
          rfl
  refine ⟨fun f2 s2 => ?_, fun q => ?_⟩
  · unfold Shutdown
    rw [if_pos hlib]
  · unfold instGet
    rw [if_pos hlib]

/-- C9 witness: one successful Shutdown from a live instance, then a
second Shutdown and a Get on the resulting state. -/
theorem C9_shutdown_idempotent_get_fails_witness :
    Shutdown c9after true true = (c9after, none)
    ∧ instGet c9after c9q = (none, some "nvml not initialized") := by
  obtain ⟨hs, hg⟩ := C9_shutdown_idempotent_get_fails Unit c9inst c9after true true rfl
  exact ⟨hs true true, hg c9q⟩
